import Mathlib

/-!
Verification development for the OCS B2B API proxy service (src/app.py).

The embedding covers, shallowly and executably:
  * a JSON-like value type standing for the Python values the service
    passes around (parsed response bodies, jsonify payloads);
  * Python dict operations on association lists, keeping insertion order
    the way CPython dicts do;
  * the request helper OCSAPI._make_request, with the upstream outcome
    (HTTP response, timeout, connection failure, other exception) made an
    explicit argument, so that the helper is a total function;
  * the OCSAPI request builders and the Flask route handlers that the
    claims mention (products by category, currency exchange, the shared
    missing-api-key guard);
  * the TTL cache layer of the spec, which is not present in this
    revision of the source and is therefore modelled from the spec.
-/

namespace OCSProxy

/-- JSON-like Python value: None, bool, int, str, list, dict. -/
inductive Json where
  | null
  | bool (b : Bool)
  | num (n : Int)
  | str (s : String)
  | arr (elems : List Json)
  | obj (fields : List (String × Json))

/-- Python dict lookup on an insertion-ordered association list. -/
def dictLookup {α : Type} (m : List (String × α)) (k : String) : Option α :=
  match m with
  | [] => none
  | (k₁, v₁) :: rest => if k₁ = k then some v₁ else dictLookup rest k

/-- Python dict.get with a default. -/
def dictGetD {α : Type} (m : List (String × α)) (k : String) (d : α) : α :=
  match dictLookup m k with
  | some v => v
  | none => d

/-- Python dict assignment: replace in place when the key exists, else
append at the end, as CPython insertion order does. -/
def dictSet {α : Type} (m : List (String × α)) (k : String) (v : α) : List (String × α) :=
  match m with
  | [] => [(k, v)]
  | (k₁, v₁) :: rest => if k₁ = k then (k, v) :: rest else (k₁, v₁) :: dictSet rest k v

/-- Python `k in d` for a dict. -/
def dictHasKey {α : Type} (m : List (String × α)) (k : String) : Bool :=
  (dictLookup m k).isSome

/-- `k in j` restricted to dicts; false on every other value. -/
def Json.hasKey : Json → String → Bool
  | .obj fields, k => dictHasKey fields k
  | _, _ => false

/-- Python truthiness of a JSON-like value. -/
def pyTruthy : Json → Bool
  | .null => false
  | .bool b => b
  | .num n => n != 0
  | .str s => s != ""
  | .arr elems => !elems.isEmpty
  | .obj fields => !fields.isEmpty

/-- Whether the first character list leads the second. -/
def leadsWith : List Char → List Char → Bool
  | [], _ => true
  | _ :: _, [] => false
  | a :: as, b :: bs => a == b && leadsWith as bs

/-- Whether the first character list occurs contiguously in the second. -/
def occursIn (needle : List Char) : List Char → Bool
  | [] => leadsWith needle []
  | c :: rest => leadsWith needle (c :: rest) || occursIn needle rest

/-- Substring test, for the Python `in` operator on strings. -/
def strContains (hay needle : String) : Bool :=
  occursIn needle.data hay.data

/-- Python `k in j`: key test on dicts, membership on lists, substring on
strings; a TypeError on the remaining values. -/
def pyIn (j : Json) (k : String) : Except String Bool :=
  match j with
  | .obj fields => .ok (dictHasKey fields k)
  | .arr elems => .ok (elems.any fun x => match x with | .str t => t == k | _ => false)
  | .str s => .ok (strContains s k)
  | _ => .error "TypeError: argument is not iterable"

/-- Python `j.get(k)`: present only on dicts, an AttributeError elsewhere. -/
def pyGetAttr (j : Json) (k : String) : Except String (Option Json) :=
  match j with
  | .obj fields => .ok (dictLookup fields k)
  | _ => .error "AttributeError: object has no attribute get"

/-- Python `len(j)`; a TypeError on values without a length. -/
def pyLen (j : Json) : Except String Nat :=
  match j with
  | .arr elems => .ok elems.length
  | .obj fields => .ok fields.length
  | .str s => .ok s.length
  | _ => .error "TypeError: object has no len"

/-! ## OCSAPI._make_request (src/app.py lines 42-76) -/

/-- Outcome of one upstream HTTP attempt, as seen by `_make_request`:
a response whose body either parses to JSON or raises while parsing, a
requests timeout, a requests connection error, or any other exception. -/
inductive Outcome where
  | response (status : Nat) (body : Except String Json)
  | timeout
  | connError
  | exn (msg : String)

/-- The dict literal the except branches and the non-200 branch build. -/
def errorDict (msg : String) : Json := .obj [("error", .str msg)]

/-- The method dispatch of `_make_request`: exactly the four string
comparisons of src/app.py lines 50-57. -/
def isSupported (m : String) : Bool :=
  m == "GET" || m == "POST" || m == "PUT" || m == "DELETE"

/-- The timeout tuple of src/app.py line 48: (connect timeout, read timeout). -/
def timeout_config : Nat × Nat := (10, 20)

/-- One `_make_request` invocation performs one upstream HTTP attempt when
the method is dispatched, and none otherwise; lines 50-57 issue a single
session call with no retry loop. -/
def upstreamAttempts (m : String) : Nat :=
  if isSupported m then 1 else 0

/-- OCSAPI._make_request, src/app.py lines 42-76, with the upstream
outcome explicit.  Returns Python None (here `Option.none`) for an
undispatched method; on status 200 the parsed body; on every other status
the error dict naming the status; on a timeout, connection error, body
parse failure or other exception the corresponding error dict, since each
is caught by an except clause. -/
def make_request (method : String) (o : Outcome) : Option Json :=
  if isSupported method then
    some (match o with
      | .response status body =>
          if status == 200 then
            match body with
            | .ok j => j
            | .error e => errorDict e
          else errorDict ("OCS API returned " ++ toString status)
      | .timeout => errorDict "Timeout connecting to OCS API"
      | .connError => errorDict "Connection error to OCS API"
      | .exn e => errorDict e)
  else none

/-- Whether a `_make_request` result is an error dict in the sense the
route layer uses (`if result and "error" in result`). -/
def hasErrorKeyO : Option Json → Bool
  | none => false
  | some j => j.hasKey "error"

theorem errorDict_hasKey (e : String) : (errorDict e).hasKey "error" = true := rfl

/-- C1 counterexample: the 2xx status 201 with a parseable body is turned
into an error dict naming the status, not into the parsed body, so 2xx
statuses other than 200 ARE treated as errors by `_make_request`. -/
theorem C1_counterexample :
    200 ≤ 201 ∧ 201 < 300 ∧
    hasErrorKeyO (make_request "GET" (.response 201 (.ok (.arr [])))) = true ∧
    make_request "GET" (.response 201 (.ok (.arr []))) =
      some (errorDict "OCS API returned 201") :=
  ⟨by decide, by decide, rfl, rfl⟩

/-- C1 (amended): for every dispatched method and parseable body that is
not itself error-shaped, the result of `_make_request` is an error exactly
when the status differs from 200; every non-200 status, the other 2xx
statuses included, yields the error dict naming the status. -/
theorem C1_only_200_is_success (m : String) (status : Nat) (b : Json)
    (hm : isSupported m = true) (hb : b.hasKey "error" = false) :
    (hasErrorKeyO (make_request m (.response status (.ok b))) = true ↔ status ≠ 200) ∧
    (status ≠ 200 →
      make_request m (.response status (.ok b)) =
        some (errorDict ("OCS API returned " ++ toString status))) := by
  by_cases hs : status = 200
  · subst hs
    simp [make_request, hm, hasErrorKeyO, hb]
  · have hbeq : (status == 200) = false := by simpa using hs
    simp [make_request, hm, hbeq, hs, hasErrorKeyO, errorDict_hasKey]

/-- Witness for C1_only_200_is_success at method GET, status 404,
body the empty list. -/
theorem C1_witness :
    isSupported "GET" = true ∧ Json.hasKey (Json.arr []) "error" = false ∧
    (hasErrorKeyO (make_request "GET" (.response 404 (.ok (.arr [])))) = true ↔ 404 ≠ 200) ∧
    (404 ≠ 200 → make_request "GET" (.response 404 (.ok (.arr []))) =
      some (errorDict ("OCS API returned " ++ toString 404))) :=
  ⟨rfl, rfl, (C1_only_200_is_success "GET" 404 (.arr []) rfl rfl).1,
    (C1_only_200_is_success "GET" 404 (.arr []) rfl rfl).2⟩

/-- C2: `_make_request` is total over every method string and upstream
outcome: it returns Python None exactly for the undispatched methods, and
for a dispatched method it returns the parsed body of a 200 response or a
dict carrying the key "error" on every failure. -/
theorem C2_total_classification (m : String) (o : Outcome) :
    (isSupported m = false ∧ make_request m o = none) ∨
    (isSupported m = true ∧ ∃ j, make_request m o = some j ∧
      (o = .response 200 (.ok j) ∨ j.hasKey "error" = true)) := by
  cases hm : isSupported m with
  | false => exact Or.inl ⟨rfl, by simp [make_request, hm]⟩
  | true =>
    refine Or.inr ⟨rfl, ?_⟩
    cases o with
    | response status body =>
      by_cases hs : status = 200
      · subst hs
        cases body with
        | ok j => exact ⟨j, by simp [make_request, hm], Or.inl rfl⟩
        | error e =>
          exact ⟨errorDict e, by simp [make_request, hm], Or.inr (errorDict_hasKey e)⟩
      · have hbeq : (status == 200) = false := by simpa using hs
        exact ⟨errorDict ("OCS API returned " ++ toString status),
          by simp [make_request, hm, hbeq], Or.inr (errorDict_hasKey _)⟩
    | timeout =>
      exact ⟨errorDict "Timeout connecting to OCS API",
        by simp [make_request, hm], Or.inr (errorDict_hasKey _)⟩
    | connError =>
      exact ⟨errorDict "Connection error to OCS API",
        by simp [make_request, hm], Or.inr (errorDict_hasKey _)⟩
    | exn e =>
      exact ⟨errorDict e, by simp [make_request, hm], Or.inr (errorDict_hasKey _)⟩

/-- C6: the connect timeout and the read timeout of the upstream call are
distinct, one invocation performs at most 3 upstream attempts (in fact at
most one, with no retry loop), and a timeout terminates as an error
result. -/
theorem C6_bounded_attempts_distinct_timeouts (m : String) :
    timeout_config.1 ≠ timeout_config.2 ∧
    upstreamAttempts m ≤ 3 ∧
    (isSupported m = true →
      make_request m .timeout = some (errorDict "Timeout connecting to OCS API")) := by
  refine ⟨by decide, ?_, fun hm => by simp [make_request, hm]⟩
  unfold upstreamAttempts
  split <;> decide

/-- Witness for C6_bounded_attempts_distinct_timeouts at method GET. -/
theorem C6_witness :
    isSupported "GET" = true ∧
    make_request "GET" Outcome.timeout = some (errorDict "Timeout connecting to OCS API") :=
  ⟨rfl, (C6_bounded_attempts_distinct_timeouts "GET").2.2 rfl⟩

/-! ## OCSAPI request builders and the route handlers the claims mention -/

/-- A query parameter value as handed to the requests library: the raw
strings of request.args plus the int default 50 the code fills for limit. -/
inductive PVal where
  | s (v : String)
  | n (v : Int)
deriving DecidableEq

/-- The upstream HTTP request an OCSAPI method hands to `_make_request`:
method, endpoint, the params dict (None when the method passes none) and
the JSON body (None for GET). -/
structure Request where
  method : String
  endpoint : String
  params : Option (List (String × PVal))
  body : Option Json

/-- OCSAPI.get_products_by_category, src/app.py lines 85-89: writes
shipmentcity into params, fills the default limit 50, and issues a GET to
catalog/categories/{categories}/products. -/
def get_products_by_category_req (categories shipment_city : String)
    (params : List (String × PVal)) : Request :=
  { method := "GET",
    endpoint := "catalog/categories/" ++ categories ++ "/products",
    params := some (dictSet (dictSet params "shipmentcity" (.s shipment_city)) "limit"
      (dictGetD (dictSet params "shipmentcity" (.s shipment_city)) "limit" (.n 50))),
    body := none }

/-- OCSAPI.get_currencies_exchange, src/app.py lines 184-185: a GET to
account/currencies/exchanges with no params and no body. -/
def get_currencies_exchange_req : Request :=
  { method := "GET", endpoint := "account/currencies/exchanges",
    params := none, body := none }

/-- The value OCSAPI.get_currencies_exchange returns under a given
upstream outcome: it returns `_make_request` directly; no stored state
enters the computation. -/
def get_currencies_exchange (o : Outcome) : Option Json :=
  make_request "GET" o

/-- Two requests carry the same upstream request content: same method,
endpoint and body, and the same query parameter mapping (the insertion
order of the params dict is not part of the upstream contract). -/
def Request.sameUpstream (r s : Request) : Prop :=
  r.method = s.method ∧ r.endpoint = s.endpoint ∧ r.body = s.body ∧
  r.params.isSome = s.params.isSome ∧
  ∀ k, dictLookup (r.params.getD []) k = dictLookup (s.params.getD []) k

/-- The OCSAPI client object; constructed only when an api key exists. -/
structure Client where
  api_key : String

/-- Module initialization, src/app.py lines 282-288: ocs_api stays None
when OCS_API_KEY is unset (or empty, hence falsy), and is a client
otherwise. -/
def initApi (envKey : Option String) : Option Client :=
  match envKey with
  | none => none
  | some k => if k = "" then none else some ⟨k⟩

/-- Observable result of one route handler invocation: HTTP status, JSON
body, and the upstream requests issued while handling. -/
structure RouteResult where
  status : Nat
  body : Json
  upstream : List Request

/-- Body of the guard branch shared by every /api/v2 data route. -/
def noApiKeyBody : Json :=
  .obj [("success", .bool false),
        ("error", .str "API ключ не настроен"),
        ("message", .str "Установите переменную окружения OCS_API_KEY")]

/-- The guard opening every /api/v2 data route (src/app.py, e.g. lines
386-393): with ocs_api = None the handler returns the 500 error response
at once and the rest of the handler never runs. -/
def routeGuarded (api : Option Client) (handler : Client → RouteResult) : RouteResult :=
  match api with
  | none => { status := 500, body := noApiKeyBody, upstream := [] }
  | some c => handler c

/-- The upstream-error branch body of the data routes. -/
def upstreamErrorBody (err : Option Json) (ts : String) : Json :=
  .obj [("success", .bool false),
        ("error", match err with | some j => j | none => .null),
        ("message", .str "Ошибка при подключении к OCS API"),
        ("timestamp", .str ts)]

/-- The except-branch body of the data routes. -/
def handlerExceptionBody (e ts : String) : Json :=
  .obj [("success", .bool false),
        ("error", .str e),
        ("message", .str "Внутренняя ошибка сервера"),
        ("timestamp", .str ts)]

/-- The falsy-result body of the products routes: success false, the
placeholder data dict, total count 0. -/
def productsFalsyBody (ts : String) : Json :=
  .obj [("success", .bool false),
        ("data", .obj [("result", .arr [])]),
        ("total_count", .num 0),
        ("source", .str "ocs_api"),
        ("timestamp", .str ts)]

/-- Lines 488-502 of src/app.py: classify the `_make_request` result and
build the products route response body; Python attribute and type errors
raised while building it fall to the except branch. -/
def productsRouteBody (products : Option Json) (ts : String) : Json :=
  match products with
  | none => productsFalsyBody ts
  | some j =>
    if pyTruthy j then
      match pyIn j "error" with
      | .error e => handlerExceptionBody e ts
      | .ok true =>
        match pyGetAttr j "error" with
        | .error e => handlerExceptionBody e ts
        | .ok err => upstreamErrorBody err ts
      | .ok false =>
        match pyGetAttr j "result" with
        | .error e => handlerExceptionBody e ts
        | .ok res =>
          match pyLen (match res with | some r => r | none => .arr []) with
          | .error e => handlerExceptionBody e ts
          | .ok count =>
            .obj [("success", .bool true),
                  ("data", j),
                  ("total_count", .num (count : Int)),
                  ("source", .str "ocs_api"),
                  ("timestamp", .str ts)]
    else productsFalsyBody ts

/-- The products-by-category route handler, src/app.py lines 465-514.
The handler reads shipment_city with the default, normalizes the path
category, and calls the OCSAPI method with both explicit keyword
arguments and the raw splat of request.args; when the query args carry
categories, shipment_city or self, that splat collides with a bound
argument, Python raises a TypeError before any upstream request, and the
except branch answers. -/
def productsByCategoryRoute (api : Option Client) (category : String)
    (args : List (String × String)) (ts : String) (o : Outcome) : RouteResult :=
  routeGuarded api fun _ =>
    let city := dictGetD args "shipment_city" "Красноярск"
    let cat := if category == "undefined" || category == "null" || category == ""
      then "all" else category
    if dictHasKey args "categories" || dictHasKey args "shipment_city"
        || dictHasKey args "self" then
      { status := 200,
        body := handlerExceptionBody "got multiple values for keyword argument" ts,
        upstream := [] }
    else
      let req := get_products_by_category_req cat city (args.map fun kv => (kv.1, PVal.s kv.2))
      { status := 200,
        body := productsRouteBody (make_request req.method o) ts,
        upstream := [req] }

/-- The falsy-result body of the currencies route (data defaults to an
empty list there). -/
def currenciesFalsyBody (ts : String) : Json :=
  .obj [("success", .bool false),
        ("data", .arr []),
        ("source", .str "ocs_api"),
        ("timestamp", .str ts)]

/-- Lines 1452-1465 of src/app.py: the currencies route response body. -/
def currenciesRouteBody (exchanges : Option Json) (ts : String) : Json :=
  match exchanges with
  | none => currenciesFalsyBody ts
  | some j =>
    if pyTruthy j then
      match pyIn j "error" with
      | .error e => handlerExceptionBody e ts
      | .ok true =>
        match pyGetAttr j "error" with
        | .error e => handlerExceptionBody e ts
        | .ok err => upstreamErrorBody err ts
      | .ok false =>
        .obj [("success", .bool true),
              ("data", j),
              ("source", .str "ocs_api"),
              ("timestamp", .str ts)]
    else currenciesFalsyBody ts

/-- The currencies-exchange route handler, src/app.py lines 1438-1477:
guard, one OCSAPI call, body classification. -/
def currenciesRoute (api : Option Client) (ts : String) (o : Outcome) : RouteResult :=
  routeGuarded api fun _ =>
    { status := 200,
      body := currenciesRouteBody (get_currencies_exchange o) ts,
      upstream := [get_currencies_exchange_req] }

/-- Field access on a JSON object. -/
def Json.getField : Json → String → Option Json
  | .obj fields, k => dictLookup fields k
  | _, _ => none

theorem dictLookup_dictSet {α : Type} (m : List (String × α)) (k k' : String) (v : α) :
    dictLookup (dictSet m k v) k' = if k = k' then some v else dictLookup m k' := by
  induction m with
  | nil => simp [dictSet, dictLookup]
  | cons hd tl ih =>
    obtain ⟨k₁, v₁⟩ := hd
    by_cases h1 : k₁ = k
    · subst h1
      simp only [dictSet, if_pos rfl, dictLookup]
      by_cases h2 : k₁ = k' <;> simp [h2]
    · simp only [dictSet, if_neg h1, dictLookup]
      by_cases h2 : k₁ = k'
      · have : ¬ k = k' := fun h => h1 (h2.trans h.symm)
        simp [h2, this]
      · simp [h2, ih]

/-- C8: every invocation of the currencies-exchange route with a client
configured issues exactly one upstream request, the GET to
account/currencies/exchanges — there is no cache in the path — and the
value the OCSAPI method returns on a fresh parsed 200 response is that
fresh body itself, never a stored earlier value. -/
theorem C8_currencies_never_cached (c : Client) (ts : String) (o : Outcome) (b : Json) :
    (currenciesRoute (some c) ts o).upstream = [get_currencies_exchange_req] ∧
    get_currencies_exchange (.response 200 (.ok b)) = some b :=
  ⟨rfl, rfl⟩

/-- C9: with OCS_API_KEY unset the module keeps ocs_api = None, and every
guarded /api/v2 data route (the guard opens each of the 45 data routes of
src/app.py) answers with status 500, success false, and issues no
upstream request; in particular the two routes modelled here do. -/
theorem C9_no_key_guard (h : Client → RouteResult) (category : String)
    (args : List (String × String)) (ts : String) (o : Outcome) :
    initApi none = none ∧
    (routeGuarded none h).status = 500 ∧
    (routeGuarded none h).body.getField "success" = some (.bool false) ∧
    (routeGuarded none h).upstream = [] ∧
    (productsByCategoryRoute none category args ts o).status = 500 ∧
    (productsByCategoryRoute none category args ts o).body.getField "success" =
      some (.bool false) ∧
    (productsByCategoryRoute none category args ts o).upstream = [] ∧
    (currenciesRoute none ts o).status = 500 ∧
    (currenciesRoute none ts o).upstream = [] :=
  ⟨rfl, rfl, rfl, rfl, rfl, rfl, rfl, rfl, rfl⟩

/-- C10: the products-by-category route handles the path categories
undefined, null and the empty string exactly as it handles all: with the
same query args, timestamp and upstream outcome, the whole route result
(body and upstream requests included) coincides. -/
theorem C10_category_normalization (api : Option Client)
    (args : List (String × String)) (ts : String) (o : Outcome) :
    productsByCategoryRoute api "undefined" args ts o =
      productsByCategoryRoute api "all" args ts o ∧
    productsByCategoryRoute api "null" args ts o =
      productsByCategoryRoute api "all" args ts o ∧
    productsByCategoryRoute api "" args ts o =
      productsByCategoryRoute api "all" args ts o :=
  ⟨rfl, rfl, rfl⟩

/-- C7 counterexample: with the client configured, a products route
request whose query args set shipment_city explicitly to its default
value issues NO upstream request (the splat of request.args collides with
the explicit shipment_city keyword argument and Python raises a
TypeError), while the same request without the argument issues one, so
the two do not behave identically. -/
theorem C7_counterexample :
    (productsByCategoryRoute (some ⟨"key"⟩) "all" [("shipment_city", "Красноярск")] "T"
        (.response 200 (.ok (.obj [("result", .arr [])])))).upstream ≠
    (productsByCategoryRoute (some ⟨"key"⟩) "all" [] "T"
        (.response 200 (.ok (.obj [("result", .arr [])])))).upstream :=
  fun h => List.noConfusion h

/-- C7 (amended): at the OCSAPI method level, a parameter map with no
limit entry yields the same upstream request content as the identical map
with limit explicitly set to 50 (the default is filled before the request
is built); at the route level, however, a query carrying an explicit
shipment_city argument makes the handler raise internally and answer the
except-branch body with no upstream request at all. -/
theorem C7_limit_default_and_city_collision (cat city : String)
    (ps : List (String × PVal)) (c : Client) (args : List (String × String))
    (ts : String) (o : Outcome)
    (hps : dictLookup ps "limit" = none)
    (hargs : dictHasKey args "shipment_city" = true) :
    Request.sameUpstream (get_products_by_category_req cat city ps)
      (get_products_by_category_req cat city (dictSet ps "limit" (PVal.n 50))) ∧
    (productsByCategoryRoute (some c) cat args ts o).upstream = [] ∧
    (productsByCategoryRoute (some c) cat args ts o).body =
      handlerExceptionBody "got multiple values for keyword argument" ts := by
  have h1 : dictLookup (dictSet ps "shipmentcity" (PVal.s city)) "limit" = none := by
    rw [dictLookup_dictSet, if_neg (by decide), hps]
  have h2 : dictLookup (dictSet (dictSet ps "limit" (PVal.n 50)) "shipmentcity"
      (PVal.s city)) "limit" = some (PVal.n 50) := by
    rw [dictLookup_dictSet, if_neg (by decide), dictLookup_dictSet, if_pos rfl]
  refine ⟨⟨rfl, rfl, rfl, rfl, fun k => ?_⟩, ?_, ?_⟩
  · simp only [get_products_by_category_req, dictGetD, h1, h2, Option.getD]
    simp only [dictLookup_dictSet]
    by_cases hk1 : ("limit" : String) = k <;> by_cases hk2 : ("shipmentcity" : String) = k <;>
      simp [hk1, hk2]
  · simp [productsByCategoryRoute, routeGuarded, hargs]
  · simp [productsByCategoryRoute, routeGuarded, hargs]

/-- Witness for C7_limit_default_and_city_collision at the empty
parameter map and the args dict that sets shipment_city explicitly. -/
theorem C7_witness :
    dictLookup ([] : List (String × PVal)) "limit" = none ∧
    dictHasKey [("shipment_city", "Красноярск")] "shipment_city" = true ∧
    (Request.sameUpstream (get_products_by_category_req "all" "Красноярск" [])
        (get_products_by_category_req "all" "Красноярск"
          (dictSet [] "limit" (PVal.n 50))) ∧
      (productsByCategoryRoute (some ⟨"key"⟩) "all" [("shipment_city", "Красноярск")] "T"
          Outcome.timeout).upstream = [] ∧
      (productsByCategoryRoute (some ⟨"key"⟩) "all" [("shipment_city", "Красноярск")] "T"
          Outcome.timeout).body =
        handlerExceptionBody "got multiple values for keyword argument" "T") :=
  ⟨rfl, rfl, C7_limit_default_and_city_collision "all" "Красноярск" [] ⟨"key"⟩
    [("shipment_city", "Красноярск")] "T" Outcome.timeout rfl rfl⟩

/-! ## The TTL cache layer (spec sections 3, 4.2, 4.4), modelled from the
spec: no cache, get_or_refresh, or single-flight machinery exists in this
revision of src/, so the component is embedded from the words of the
specification. -/

/-- Modelled from the spec: one cache entry (spec section 3) — the stored
value, its storage time, and whether the most recent refresh failed (the
error mark that keeps the value as fallback). -/
structure GREntry (V : Type) where
  value : V
  stored_at : Nat
  errored : Bool

/-- Modelled from the spec: the cache state — the key to entry map, the
set of keys with a refresh in flight (single-flight bookkeeping), and a
counter of upstream refresh invocations started so far. -/
structure GRCache (V : Type) where
  entries : List (String × GREntry V)
  inflight : List String
  calls : Nat

/-- Modelled from the spec: the derived entry state of spec section 3 —
fresh within the TTL window, error when the most recent refresh failed,
stale otherwise. -/
inductive GRState where
  | fresh
  | stale
  | error
deriving DecidableEq

/-- Result one get_or_refresh caller observes at its own atomic step: a
value with its state, or attachment to the in-flight refresh (the caller
blocks and receives that refresh result when it completes). -/
inductive GRResult (V : Type) where
  | val (v : V) (st : GRState)
  | attached
  | err (e : String)

/-- Modelled from the spec: the derived state of an entry at a given
time. -/
def stateOf {V : Type} (e : GREntry V) (ttl now : Nat) : GRState :=
  if now - e.stored_at < ttl then .fresh else if e.errored then .error else .stale

/-- Modelled from the spec: the atomic arrival step of
get_or_refresh(key, ttl, refresh_fn) (spec section 4.2).  A fresh entry
answers at once with no upstream call; an expired entry answers with the
previous value at once and starts a refresh unless one is already in
flight (single-flight, serve-stale-while-refreshing); a cold miss blocks
on the refresh, attaching to the in-flight one when it exists. -/
def get_or_refresh {V : Type} (c : GRCache V) (key : String) (ttl now : Nat) :
    GRResult V × GRCache V :=
  match dictLookup c.entries key with
  | some e =>
    if now - e.stored_at < ttl then (.val e.value .fresh, c)
    else if key ∈ c.inflight then (.val e.value (stateOf e ttl now), c)
    else (.val e.value (stateOf e ttl now),
      { c with inflight := key :: c.inflight, calls := c.calls + 1 })
  | none =>
    if key ∈ c.inflight then (.attached, c)
    else (.attached, { c with inflight := key :: c.inflight, calls := c.calls + 1 })

/-- Modelled from the spec: completion of the in-flight refresh for a key.
Success replaces the value and the storage time; failure marks the entry
errored and leaves the stored value untouched (spec section 4.2). -/
def completeRefresh {V : Type} (c : GRCache V) (key : String) (now : Nat)
    (result : Except String V) : GRCache V :=
  if key ∈ c.inflight then
    match result with
    | .ok v =>
      { entries := dictSet c.entries key ⟨v, now, false⟩,
        inflight := c.inflight.erase key, calls := c.calls }
    | .error _ =>
      { entries :=
          match dictLookup c.entries key with
          | some e => dictSet c.entries key { e with errored := true }
          | none => c.entries,
        inflight := c.inflight.erase key, calls := c.calls }
  else c

/-- Modelled from the spec: the result a caller waiting on the refresh of
a key receives at completion — the fresh value on success; on failure the
previous value with the error state when one exists, else the propagated
typed error (spec sections 4.2 and 7). -/
def deliveredResult {V : Type} (c : GRCache V) (key : String)
    (result : Except String V) : GRResult V :=
  match result with
  | .ok v => .val v .fresh
  | .error e =>
    match dictLookup c.entries key with
    | some entry => .val entry.value .error
    | none => .err e

/-- A sequence of get_or_refresh arrivals for one key, applied in order
to the cache state (the interleaving of N concurrent callers, each step
atomic under the cache lock). -/
def processArrivals {V : Type} (c : GRCache V) (key : String) (ttl : Nat)
    (times : List Nat) : GRCache V :=
  times.foldl (fun acc t => (get_or_refresh acc key ttl t).2) c

theorem get_or_refresh_inflight_fixed {V : Type} (c : GRCache V) (key : String)
    (ttl t : Nat) (hin : key ∈ c.inflight) :
    (get_or_refresh c key ttl t).2 = c := by
  unfold get_or_refresh
  cases hl : dictLookup c.entries key with
  | none => simp [hin]
  | some e =>
    by_cases hf : t - e.stored_at < ttl <;> simp [hf, hin]

theorem processArrivals_inflight_fixed {V : Type} (c : GRCache V) (key : String)
    (ttl : Nat) (times : List Nat) (hin : key ∈ c.inflight) :
    processArrivals c key ttl times = c := by
  induction times with
  | nil => rfl
  | cons t rest ih =>
    unfold processArrivals
    rw [List.foldl_cons, get_or_refresh_inflight_fixed c key ttl t hin]
    exact ih

/-- C3: a get_or_refresh arrival for a key whose entry satisfies
now - stored_at < ttl returns the stored value with the fresh state and
leaves the cache (its upstream call counter included) untouched; and any
arrival that does start an upstream call does so only for an absent or
expired entry. -/
theorem C3_ttl_respect {V : Type} (c : GRCache V) (key : String) (ttl now : Nat)
    (e : GREntry V) (he : dictLookup c.entries key = some e)
    (hf : now - e.stored_at < ttl) :
    get_or_refresh c key ttl now = (.val e.value .fresh, c) ∧
    ∀ (c₂ : GRCache V) (k₂ : String) (t₂ n₂ : Nat),
      (get_or_refresh c₂ k₂ t₂ n₂).2.calls ≠ c₂.calls →
      dictLookup c₂.entries k₂ = none ∨
        ∃ e₂, dictLookup c₂.entries k₂ = some e₂ ∧ ¬ (n₂ - e₂.stored_at < t₂) := by
  constructor
  · simp [get_or_refresh, he, hf]
  · intro c₂ k₂ t₂ n₂ hcalls
    cases hl : dictLookup c₂.entries k₂ with
    | none => exact Or.inl rfl
    | some e₂ =>
      refine Or.inr ⟨e₂, rfl, ?_⟩
      intro hfresh
      exact hcalls (by simp [get_or_refresh, hl, hfresh])

/-- Witness for C3_ttl_respect on a one-entry cache well inside its TTL
window. -/
theorem C3_witness :
    dictLookup (GRCache.mk [("cities", GREntry.mk (5 : Nat) 100 false)] [] 0).entries
      "cities" = some (GREntry.mk 5 100 false) ∧
    200 - 100 < 1800 ∧
    get_or_refresh (GRCache.mk [("cities", GREntry.mk (5 : Nat) 100 false)] [] 0)
      "cities" 1800 200 =
      (GRResult.val 5 GRState.fresh, GRCache.mk [("cities", GREntry.mk 5 100 false)] [] 0) :=
  ⟨rfl, by decide,
    (C3_ttl_respect (GRCache.mk [("cities", GREntry.mk 5 100 false)] [] 0)
      "cities" 1800 200 (GREntry.mk 5 100 false) rfl (by decide)).1⟩

/-- C4: when the in-flight refresh of a key holding value V fails, the
caller waiting on it receives V with the error state (no exception, no
empty value), the stored value is left unchanged with only the error mark
set, and a later arrival still receives V with the error state. -/
theorem C4_stale_serve_on_failure {V : Type} (c : GRCache V) (key : String)
    (ttl now : Nat) (e : GREntry V) (msg : String)
    (he : dictLookup c.entries key = some e)
    (hexp : ¬ (now - e.stored_at < ttl))
    (hin : key ∈ c.inflight) :
    deliveredResult c key (.error msg) = .val e.value .error ∧
    dictLookup (completeRefresh c key now (.error msg)).entries key =
      some { e with errored := true } ∧
    (get_or_refresh (completeRefresh c key now (.error msg)) key ttl now).1 =
      .val e.value .error := by
  have hlook : dictLookup (completeRefresh c key now (.error msg)).entries key =
      some { e with errored := true } := by
    simp [completeRefresh, hin, he, dictLookup_dictSet]
  refine ⟨by simp [deliveredResult, he], hlook, ?_⟩
  have hst : stateOf { e with errored := true } ttl now = GRState.error := by
    simp [stateOf, hexp]
  by_cases h2 : key ∈ (completeRefresh c key now (.error msg)).inflight <;>
    simp [get_or_refresh, hlook, hexp, h2, hst]

/-- Witness for C4_stale_serve_on_failure on a one-entry cache whose key
is being refreshed and whose refresh fails with a timeout. -/
theorem C4_witness :
    dictLookup (GRCache.mk [("categories", GREntry.mk (7 : Nat) 0 false)]
      ["categories"] 1).entries "categories" = some (GREntry.mk 7 0 false) ∧
    ¬ (2000 - 0 < 1800) ∧
    "categories" ∈ (GRCache.mk [("categories", GREntry.mk (7 : Nat) 0 false)]
      ["categories"] 1).inflight ∧
    (deliveredResult (GRCache.mk [("categories", GREntry.mk (7 : Nat) 0 false)]
        ["categories"] 1) "categories" (.error "UpstreamTimeout") =
        GRResult.val 7 GRState.error ∧
      dictLookup (completeRefresh (GRCache.mk [("categories", GREntry.mk (7 : Nat) 0 false)]
        ["categories"] 1) "categories" 2000 (.error "UpstreamTimeout")).entries
        "categories" = some (GREntry.mk 7 0 true) ∧
      (get_or_refresh (completeRefresh (GRCache.mk [("categories", GREntry.mk (7 : Nat) 0 false)]
        ["categories"] 1) "categories" 2000 (.error "UpstreamTimeout"))
        "categories" 1800 2000).1 = GRResult.val 7 GRState.error) :=
  ⟨rfl, by decide, by simp,
    C4_stale_serve_on_failure (GRCache.mk [("categories", GREntry.mk 7 0 false)]
      ["categories"] 1) "categories" 1800 2000 (GREntry.mk 7 0 false)
      "UpstreamTimeout" rfl (by decide) (by simp)⟩

/-- C5: N consecutive arrivals for one key whose entry is expired at
every arrival time, starting with no refresh in flight, leave the
upstream call counter at exactly one more than before — one refresh, not
N; and every arrival finding a refresh already in flight leaves the cache
unchanged (no duplicate upstream call) and either attaches to the
in-flight refresh or receives the previously stored value. -/
theorem C5_single_flight {V : Type} (c : GRCache V) (key : String) (ttl : Nat)
    (times : List Nat) (e : GREntry V)
    (he : dictLookup c.entries key = some e)
    (hexp : ∀ t ∈ times, ¬ (t - e.stored_at < ttl))
    (hnin : key ∉ c.inflight)
    (hne : times ≠ []) :
    (processArrivals c key ttl times).calls = c.calls + 1 ∧
    ∀ (c₂ : GRCache V) (t : Nat), key ∈ c₂.inflight →
      (get_or_refresh c₂ key ttl t).2 = c₂ ∧
      ((get_or_refresh c₂ key ttl t).1 = GRResult.attached ∨
        ∃ e₂, dictLookup c₂.entries key = some e₂ ∧
          ∃ st, (get_or_refresh c₂ key ttl t).1 = GRResult.val e₂.value st) := by
  constructor
  · cases times with
    | nil => exact absurd rfl hne
    | cons t rest =>
      have hstep : (get_or_refresh c key ttl t).2 =
          { c with inflight := key :: c.inflight, calls := c.calls + 1 } := by
        simp [get_or_refresh, he, hexp t (List.mem_cons_self t rest), hnin]
      have hin2 : key ∈ ((get_or_refresh c key ttl t).2).inflight := by
        rw [hstep]; exact List.mem_cons_self _ _
      have hrest := processArrivals_inflight_fixed ((get_or_refresh c key ttl t).2)
        key ttl rest hin2
      unfold processArrivals
      rw [List.foldl_cons]
      show (processArrivals ((get_or_refresh c key ttl t).2) key ttl rest).calls =
        c.calls + 1
      rw [hrest, hstep]
  · intro c₂ t hin
    refine ⟨get_or_refresh_inflight_fixed c₂ key ttl t hin, ?_⟩
    cases hl : dictLookup c₂.entries key with
    | none => exact Or.inl (by simp [get_or_refresh, hl, hin])
    | some e₂ =>
      by_cases hf : t - e₂.stored_at < ttl
      · exact Or.inr ⟨e₂, rfl, GRState.fresh, by simp [get_or_refresh, hl, hf]⟩
      · exact Or.inr ⟨e₂, rfl, stateOf e₂ ttl t, by simp [get_or_refresh, hl, hf, hin]⟩

/-- Witness for C5_single_flight: three arrivals for one expired key make
exactly one upstream call. -/
theorem C5_witness :
    dictLookup (GRCache.mk [("categories", GREntry.mk (7 : Nat) 0 false)] [] 0).entries
      "categories" = some (GREntry.mk 7 0 false) ∧
    (∀ t ∈ ([100, 101, 102] : List Nat),
      ¬ (t - (GREntry.mk (7 : Nat) 0 false).stored_at < 10)) ∧
    "categories" ∉ (GRCache.mk [("categories", GREntry.mk (7 : Nat) 0 false)] [] 0).inflight ∧
    ([100, 101, 102] : List Nat) ≠ [] ∧
    (processArrivals (GRCache.mk [("categories", GREntry.mk (7 : Nat) 0 false)] [] 0)
      "categories" 10 [100, 101, 102]).calls = 0 + 1 :=
  ⟨rfl, by decide, by simp, by simp,
    (C5_single_flight (GRCache.mk [("categories", GREntry.mk 7 0 false)] [] 0)
      "categories" 10 [100, 101, 102] (GREntry.mk 7 0 false) rfl (by decide)
      (by simp) (by simp)).1⟩

end OCSProxy
